import Mathlib

/-!
Verification of the SGE backend onboarding and chat workflows.

A shallow embedding of the JavaScript backend: the hosted datastore is a
`Store` (lists of rows plus an id counter), each Supabase query is a pure
function on that state, and every query site can be made to fail through an
injected `Option DbError` so that the error-handling paths of the source are
reachable.  The service and controller functions are transcribed from
`src/services/userOnboardingService.js`,
`src/controllers/onboardingController.js`,
`src/controllers/webhookController.js` and the Supabase-backed chat
controller.
-/

namespace SGE

/-- A PostgREST/Supabase error object: a `code` and a `message`. -/
structure DbError where
  code : String
  message : String
deriving DecidableEq

/-- The PostgREST "no rows" error produced by `.single()` on an empty result. -/
def noRowsError : DbError :=
  ⟨"PGRST116", "JSON object requested, multiple (or no) rows returned"⟩

/-- The Postgres unique-violation error raised on a duplicate primary key. -/
def duplicateKeyError : DbError :=
  ⟨"23505", "duplicate key value violates unique constraint"⟩

/-- Row of the `organizations` table. -/
structure Organization where
  id : Nat
  name : String
deriving DecidableEq

/-- Row of the `profiles` table; `id` is the auth user id (the primary key). -/
structure Profile where
  id : String
  org_id : Nat
  role : String
  full_name : Option String
deriving DecidableEq

/-- The persisted state relevant to onboarding: the two tables and a counter
standing in for the database's id generator. -/
structure Store where
  organizations : List Organization
  profiles : List Profile
  nextId : Nat
deriving DecidableEq

/-- Outcome of a `.single()` query: exactly one of `data` and `error` is set,
which an `Except` captures. -/
abbrev DbResult (α : Type) := Except DbError α

/-- The `data` field of a destructured Supabase result. -/
def dataOf {α : Type} : DbResult α → Option α
  | .ok a => some a
  | .error _ => none

/-- The `error` field of a destructured Supabase result. -/
def errorOf {α : Type} : DbResult α → Option DbError
  | .ok _ => none
  | .error e => some e

/-- Fault injection for the onboarding queries: one slot per query site, so a
theorem can quantify over datastore failures that the sequential model cannot
produce on its own. -/
structure Faults where
  profileLookup : Option DbError
  orgSearch : Option DbError
  orgInsert : Option DbError
  profileInsert : Option DbError
  profileFetch : Option DbError
  orgFetch : Option DbError
deriving DecidableEq

/-- The fault-free datastore behaviour. -/
def noFaults : Faults := ⟨none, none, none, none, none, none⟩

/-! SQL `ILIKE` pattern matching, used by the organization lookup.
`%` matches any sequence of characters, `_` any single character, letter
comparison is case-insensitive, and the default escape character `\` makes
the following pattern character match only literally. -/

/-- Core LIKE matcher on character lists (both already lowercased).  A
backslash in the pattern escapes the next character, which then matches only
itself; `%` matches any sequence and `_` any single character.  Postgres
rejects a pattern that ends in a bare escape character (error 22025,
"LIKE pattern must not end with escape character") instead of matching
anything; the matcher returns `false` there, the one divergence from the
engine, and the theorems below stay away from such patterns. -/
def likeMatch : List Char → List Char → Bool
  | [], [] => true
  | [], _ :: _ => false
  | '\\' :: ps, s =>
    match ps, s with
    | [], _ => false
    | p :: ps', c :: cs => (p == c) && likeMatch ps' cs
    | _ :: _, [] => false
  | p :: ps, [] => if p = '%' then likeMatch ps [] else false
  | p :: ps, c :: cs =>
    if p = '%' then likeMatch ps (c :: cs) || likeMatch (p :: ps) cs
    else if p = '_' then likeMatch ps cs
    else (p == c) && likeMatch ps cs
termination_by ps s => ps.length + s.length

/-- Lowercase a character list. -/
def lowerChars (l : List Char) : List Char := l.map Char.toLower

/-- Case-insensitive SQL pattern match with the default `\` escape, as in
`.ilike('name', pattern)`.  The source passes the normalized organization
name verbatim as the pattern, so escape processing applies to it exactly as
Postgres would. -/
def ilike (pattern text : String) : Bool :=
  likeMatch (lowerChars pattern.data) (lowerChars text.data)

/-! The query layer: one function per Supabase call in the onboarding code. -/

/-- `from('organizations').select('id, name').ilike('name', pattern).limit(1).single()`. -/
def searchOrgByNameIlike (fault : Option DbError) (s : Store) (pattern : String) :
    DbResult Organization :=
  match fault with
  | some e => .error e
  | none =>
    match s.organizations.find? (fun o => ilike pattern o.name) with
    | some o => .ok o
    | none => .error noRowsError

/-- `from('organizations').insert({name}).select('id, name').single()`; the
database assigns the id. -/
def insertOrganization (fault : Option DbError) (s : Store) (name : String) :
    DbResult Organization × Store :=
  match fault with
  | some e => (.error e, s)
  | none =>
    let org : Organization := ⟨s.nextId, name⟩
    (.ok org, { s with organizations := s.organizations ++ [org], nextId := s.nextId + 1 })

/-- `from('profiles').select(...).eq('id', userId).single()`. -/
def selectProfileById (fault : Option DbError) (s : Store) (userId : String) :
    DbResult Profile :=
  match fault with
  | some e => .error e
  | none =>
    match s.profiles.find? (fun p => p.id == userId) with
    | some p => .ok p
    | none => .error noRowsError

/-- `from('profiles').insert(profileData).select().single()`; fails with a
unique violation when the primary key (the user id) is already present. -/
def insertProfile (fault : Option DbError) (s : Store) (p : Profile) :
    DbResult Profile × Store :=
  match fault with
  | some e => (.error e, s)
  | none =>
    if s.profiles.any (fun q => q.id == p.id) then (.error duplicateKeyError, s)
    else (.ok p, { s with profiles := s.profiles ++ [p] })

/-- `from('organizations').select('id, name').eq('id', orgId).single()`. -/
def selectOrganizationById (fault : Option DbError) (s : Store) (orgId : Nat) :
    DbResult Organization :=
  match fault with
  | some e => .error e
  | none =>
    match s.organizations.find? (fun o => o.id == orgId) with
    | some o => .ok o
    | none => .error noRowsError

/-! The onboarding service (`userOnboardingService.js`).  The source throws
only through the Supabase error objects modelled above and through the
"admin client is not configured" guard; we model a configured deployment, so
that guard never fires.  Thrown `Error`s become `Except.error` on the message
string, and each function returns the store it leaves behind. -/

/-- JavaScript `String.prototype.trim`: drop whitespace from both ends,
written structurally on the character list. -/
def jsTrim (s : String) : String :=
  ⟨((s.data.dropWhile Char.isWhitespace).reverse.dropWhile Char.isWhitespace).reverse⟩

/-- JavaScript `orgName?.trim() || 'Default Organization'`: an absent name and
a name that trims to the empty string (falsy) both yield the default label. -/
def normalizeOrgName (orgName : Option String) : String :=
  match orgName with
  | none => "Default Organization"
  | some s => if jsTrim s = "" then "Default Organization" else jsTrim s

/-- JavaScript `a || b` on optional strings: the empty string is falsy. -/
def jsOr (a b : Option String) : Option String :=
  match a with
  | some s => if s = "" then b else some s
  | none => b

/-- JavaScript `a || null` on an optional string. -/
def jsOrNull (a : Option String) : Option String :=
  match a with
  | some s => if s = "" then none else some s
  | none => none

/-- `findOrCreateOrganization(orgName)`: normalize the name, look it up
case-insensitively, return the hit, otherwise rethrow a non-"no rows" search
error, otherwise insert a fresh row. -/
def findOrCreateOrganization (f : Faults) (s : Store) (orgName : Option String) :
    Except String Organization × Store :=
  let normalizedName := normalizeOrgName orgName
  match searchOrgByNameIlike f.orgSearch s normalizedName with
  | .ok existingOrg => (.ok existingOrg, s)
  | .error searchError =>
    if searchError.code ≠ "PGRST116" then
      (.error ("Failed to search for organization: " ++ searchError.message), s)
    else
      match insertOrganization f.orgInsert s normalizedName with
      | (.error createError, s') =>
        (.error ("Failed to create organization: " ++ createError.message), s')
      | (.ok newOrg, s') => (.ok newOrg, s')

/-- `createProfile(userId, orgId, fullName = null)`: insert a profile row with
the fixed role `member`; any insert error is rethrown with a prefix. -/
def createProfile (f : Faults) (s : Store) (userId : String) (orgId : Nat)
    (fullName : Option String) : Except String Profile × Store :=
  let profileData : Profile :=
    { id := userId, org_id := orgId, role := "member", full_name := fullName }
  match insertProfile f.profileInsert s profileData with
  | (.error profileError, s') =>
    (.error ("Failed to create profile: " ++ profileError.message), s')
  | (.ok profile, s') => (.ok profile, s')

/-- The metadata object attached to an auth user. -/
structure UserMetadata where
  organization_name : Option String
  organizationName : Option String
  full_name : Option String
deriving DecidableEq

/-- The pair returned by a successful `onboardUser`. -/
structure OnboardResult where
  organization : Organization
  profile : Profile
deriving DecidableEq

/-- `onboardUser(userId, metadata)`: find-or-create the organization named in
the metadata, then create the profile; the surrounding try/catch only logs
and rethrows, so errors pass through unchanged. -/
def onboardUser (f : Faults) (s : Store) (userId : String) (metadata : UserMetadata) :
    Except String OnboardResult × Store :=
  let orgName := jsOr metadata.organization_name metadata.organizationName
  match findOrCreateOrganization f s orgName with
  | (.error e, s') => (.error e, s')
  | (.ok organization, s') =>
    match createProfile f s' userId organization.id (jsOrNull metadata.full_name) with
    | (.error e, s'') => (.error e, s'')
    | (.ok profile, s'') => (.ok ⟨organization, profile⟩, s'')

/-- `isUserOnboarded(userId)`: a read-only profile lookup by primary key.
The source returns `false` on a non-`PGRST116` error (after logging) and
otherwise `!!data`; the `Except` codomain records that the function could in
principle reject its promise, so a swallowed error is distinguishable from a
propagated one. -/
def isUserOnboarded (f : Faults) (s : Store) (userId : String) : Except String Bool :=
  let res := selectProfileById f.profileLookup s userId
  match errorOf res with
  | some e =>
    if e.code ≠ "PGRST116" then .ok false
    else .ok (dataOf res).isSome
  | none => .ok (dataOf res).isSome

/-! The onboarding HTTP controller (`onboardingController.js`).  The request
body's `organization_name` is modelled as `Option String` (the `typeof`
check only rejects non-string JSON values, which the embedding does not
carry).  `express-async-handler` plus the controller's own try/catch turn
every thrown error into the 500 response built in the catch block. -/

/-- JSON response shape of `POST /api/onboarding/complete`; absent fields are
`none`. -/
structure OnboardingResponse where
  status : Nat
  success : Option Bool
  message : Option String
  error : Option String
  details : Option String
  org : Option Organization
  profile : Option Profile
deriving DecidableEq

/-- The 400 response for a missing or blank organization name. -/
def badOrgNameResponse : OnboardingResponse :=
  { status := 400, success := none, message := none,
    error := some "organization_name is required and must be a non-empty string",
    details := none, org := none, profile := none }

/-- The catch-block 500 response carrying the thrown error's message. -/
def onboardingFailureResponse (detail : String) : OnboardingResponse :=
  { status := 500, success := none, message := none,
    error := some "Failed to complete onboarding",
    details := some detail, org := none, profile := none }

/-- `completeOnboarding` (`POST /api/onboarding/complete`): validate the body,
short-circuit idempotently when the user already has a profile, otherwise run
the onboarding service; all thrown errors become the 500 catch response. -/
def completeOnboarding (f : Faults) (s : Store) (userId : String)
    (organization_name : Option String) : OnboardingResponse × Store :=
  match organization_name with
  | none => (badOrgNameResponse, s)
  | some name =>
    if name = "" ∨ jsTrim name = "" then (badOrgNameResponse, s)
    else
      match isUserOnboarded f s userId with
      | .error e => (onboardingFailureResponse e, s)
      | .ok true =>
        match selectProfileById f.profileFetch s userId with
        | .error profileError =>
          (onboardingFailureResponse
            ("Failed to fetch existing profile: " ++ profileError.message), s)
        | .ok profile =>
          match selectOrganizationById f.orgFetch s profile.org_id with
          | .error orgError =>
            (onboardingFailureResponse
              ("Failed to fetch existing organization: " ++ orgError.message), s)
          | .ok org =>
            ({ status := 200, success := some true,
               message := some "User already onboarded", error := none,
               details := none, org := some org, profile := some profile }, s)
      | .ok false =>
        match onboardUser f s userId ⟨some name, none, none⟩ with
        | (.error e, s') => (onboardingFailureResponse e, s')
        | (.ok r, s') =>
          ({ status := 200, success := some true,
             message := some "Onboarding completed successfully", error := none,
             details := none, org := some r.organization,
             profile := some r.profile }, s')

/-! The auth webhook controller (`webhookController.js`). -/

/-- The `record` object of a Supabase auth webhook payload. -/
structure WebhookRecord where
  id : Option String
  raw_user_meta_data : Option UserMetadata
  user_metadata : Option UserMetadata
deriving DecidableEq

/-- Body of `POST /webhooks/auth`. -/
structure WebhookBody where
  type : Option String
  record : Option WebhookRecord
deriving DecidableEq

/-- JSON response shape of `POST /webhooks/auth`. -/
structure WebhookResponse where
  status : Nat
  success : Option Bool
  message : Option String
  error : Option String
  type : Option String
  userId : Option String
  organizationId : Option Nat
  organizationName : Option String
deriving DecidableEq

/-- `record?.raw_user_meta_data || record?.user_metadata || {}` (objects are
truthy, `undefined` is falsy, and the fallback is the empty object). -/
def webhookMetadata (record : Option WebhookRecord) : UserMetadata :=
  ((record.bind WebhookRecord.raw_user_meta_data).orElse
    (fun _ => record.bind WebhookRecord.user_metadata)).getD ⟨none, none, none⟩

/-- `handleAuthWebhook` (`POST /webhooks/auth`): only `INSERT` /
`user.created` events are processed; a missing user id is a 400; any error
thrown by the onboarding calls is caught and turned into a 200 response with
`success: false`, explicitly to stop the provider from retrying. -/
def handleAuthWebhook (f : Faults) (s : Store) (body : WebhookBody) :
    WebhookResponse × Store :=
  if body.type ≠ some "INSERT" ∧ body.type ≠ some "user.created" then
    ({ status := 200, success := none, message := some "Event type not handled",
       error := none, type := body.type, userId := none,
       organizationId := none, organizationName := none }, s)
  else
    let userId := body.record.bind WebhookRecord.id
    let userMetadata := webhookMetadata body.record
    if userId = none ∨ userId = some "" then
      ({ status := 400, success := none, message := none,
         error := some "Invalid webhook payload: missing user ID", type := none,
         userId := none, organizationId := none, organizationName := none }, s)
    else
      let uid := userId.getD ""
      match isUserOnboarded f s uid with
      | .error e =>
        ({ status := 200, success := some false, message := some "Webhook processed with errors",
           error := some e, type := none, userId := none,
           organizationId := none, organizationName := none }, s)
      | .ok true =>
        ({ status := 200, success := none, message := some "User already onboarded",
           error := none, type := none, userId := userId,
           organizationId := none, organizationName := none }, s)
      | .ok false =>
        match onboardUser f s uid userMetadata with
        | (.error e, s') =>
          ({ status := 200, success := some false,
             message := some "Webhook processed with errors", error := some e,
             type := none, userId := none, organizationId := none,
             organizationName := none }, s')
        | (.ok result, s') =>
          ({ status := 200, success := some true,
             message := some "User onboarded successfully", error := none,
             type := none, userId := userId,
             organizationId := some result.organization.id,
             organizationName := some result.organization.name }, s')

/-! The Supabase-backed chat controller (the durable variant that calls the
Gemini service).  Row ids and `created_at` timestamps both come from the
store's counter; messages are kept in insertion order, which coincides with
ascending `created_at`, so the ordered history query is a filter. -/

/-- Row of the `conversations` table. -/
structure Conversation where
  id : Nat
  user_id : String
  org_id : Nat
  title : String
  created_at : Nat
deriving DecidableEq

/-- Row of the `messages` table; `user_id` is null on assistant rows. -/
structure Message where
  id : Nat
  conversation_id : Nat
  org_id : Nat
  user_id : Option String
  role : String
  content : String
  created_at : Nat
deriving DecidableEq

/-- Chat tables plus the id/timestamp counter. -/
structure ChatStore where
  conversations : List Conversation
  messages : List Message
  nextId : Nat
deriving DecidableEq

/-- The identity the auth middleware attaches to a request: the validated
user id and the `org_id` of their profile, absent when no profile exists. -/
structure ReqUser where
  id : String
  org_id : Option Nat
deriving DecidableEq

/-- Fault injection for the chat queries, one slot per query site. -/
structure ChatFaults where
  convInsert : Option DbError
  userMsgInsert : Option DbError
  historyFetch : Option DbError
  assistantMsgInsert : Option DbError
deriving DecidableEq

/-- The fault-free chat datastore behaviour. -/
def noChatFaults : ChatFaults := ⟨none, none, none, none⟩

/-- `from('conversations').insert({user_id, org_id, title}).select().single()`. -/
def insertConversation (fault : Option DbError) (s : ChatStore) (user_id : String)
    (org_id : Nat) (title : String) : DbResult Conversation × ChatStore :=
  match fault with
  | some e => (.error e, s)
  | none =>
    let conv : Conversation := ⟨s.nextId, user_id, org_id, title, s.nextId⟩
    (.ok conv, { s with conversations := s.conversations ++ [conv], nextId := s.nextId + 1 })

/-- `from('messages').insert({...}).select().single()`. -/
def insertMessage (fault : Option DbError) (s : ChatStore) (conversation_id org_id : Nat)
    (user_id : Option String) (role content : String) : DbResult Message × ChatStore :=
  match fault with
  | some e => (.error e, s)
  | none =>
    let msg : Message := ⟨s.nextId, conversation_id, org_id, user_id, role, content, s.nextId⟩
    (.ok msg, { s with messages := s.messages ++ [msg], nextId := s.nextId + 1 })

/-- A row of the history query, which selects only `role` and `content`. -/
structure HistoryEntry where
  role : String
  content : String
deriving DecidableEq

/-- `from('messages').select('role, content').eq('conversation_id', id).order('created_at')`. -/
def selectHistory (fault : Option DbError) (s : ChatStore) (conversation_id : Nat) :
    DbResult (List HistoryEntry) :=
  match fault with
  | some e => .error e
  | none =>
    .ok ((s.messages.filter (fun m => m.conversation_id == conversation_id)).map
      (fun m => ⟨m.role, m.content⟩))

/-- JavaScript `content.substring(0, n)`. -/
def jsSubstringTo (s : String) (n : Nat) : String := ⟨s.data.take n⟩

/-- Response of `POST /api/chat/conversations`. -/
structure ConversationResponse where
  status : Nat
  error : Option String
  conversation : Option Conversation
deriving DecidableEq

/-- Response of `POST /api/chat/message`. -/
structure SendMessageResponse where
  status : Nat
  error : Option String
  conversation_id : Option Nat
  userMessage : Option Message
  assistantMessage : Option Message
deriving DecidableEq

/-- The 400 body shared by the two durable chat writes. -/
def noOrgErrorText : String := "User does not belong to an organization"

/-- `createConversation`: reject a caller without an organization, otherwise
insert the row (`title || 'New Conversation'`, the empty string being falsy);
a failed insert is thrown, surfacing as `Except.error`. -/
def createConversation (f : ChatFaults) (s : ChatStore) (user : ReqUser)
    (title : Option String) : Except String ConversationResponse × ChatStore :=
  match user.org_id with
  | none => (.ok { status := 400, error := some noOrgErrorText, conversation := none }, s)
  | some orgId =>
    let t := match title with
      | none => "New Conversation"
      | some t0 => if t0 = "" then "New Conversation" else t0
    match insertConversation f.convInsert s user.id orgId t with
    | (.error e, s') => (.error e.message, s')
    | (.ok conv, s') =>
      (.ok { status := 201, error := none, conversation := some conv }, s')

/-- `sendMessage` (`POST /api/chat/message`): reject a caller without an
organization; create the conversation when no id was supplied, titling it
with the 30-character prefix of the content; store the user message; fetch
the ordered history (the source also builds an unused filtered copy) and drop
its last entry; obtain the reply from the external Gemini call, substituting
the echo fallback when that call throws; store and return the assistant
message.  `generateReply` is the external completion call, a parameter
because it lives outside the repository. -/
def sendMessage (f : ChatFaults)
    (generateReply : String → List HistoryEntry → Except String String)
    (s : ChatStore) (user : ReqUser) (conversation_id : Option Nat)
    (content : String) : Except String SendMessageResponse × ChatStore :=
  match user.org_id with
  | none =>
    (.ok { status := 400, error := some noOrgErrorText, conversation_id := none,
           userMessage := none, assistantMessage := none }, s)
  | some orgId =>
    match (match conversation_id with
           | some cid => (Except.ok cid, s)
           | none =>
             let title := jsSubstringTo content 30 ++
               (if content.length > 30 then "..." else "")
             match insertConversation f.convInsert s user.id orgId title with
             | (.error convError, s1) => (.error convError.message, s1)
             | (.ok conv, s1) => (.ok conv.id, s1)) with
    | (.error e, s1) => (.error e, s1)
    | (.ok chatId, s1) =>
      match insertMessage f.userMsgInsert s1 chatId orgId (some user.id) "user" content with
      | (.error msgError, s2) => (.error msgError.message, s2)
      | (.ok userMsg, s2) =>
        match selectHistory f.historyFetch s2 chatId with
        | .error _ =>
          -- the source never destructures this query's error, so a failure
          -- leaves `history` null and the subsequent access throws
          (.error "TypeError: history is null", s2)
        | .ok history =>
          let contextHistory := history.dropLast
          let replyContent :=
            match generateReply content contextHistory with
            | .ok r => r
            | .error _ => "I got this input: " ++ content
          match insertMessage f.assistantMsgInsert s2 chatId orgId none "assistant" replyContent with
          | (.error replyError, s3) => (.error replyError.message, s3)
          | (.ok assistantMsg, s3) =>
            (.ok { status := 200, error := none, conversation_id := some chatId,
                   userMessage := some userMsg, assistantMessage := some assistantMsg }, s3)

/-! Helper lemmas. -/

/-- A leading `%` in a pattern can match the empty sequence. -/
theorem likeMatch_percent (ps s : List Char) (h : likeMatch ps s = true) :
    likeMatch ('%' :: ps) s = true := by
  cases s with
  | nil => simpa [likeMatch] using h
  | cons c cs => simp [likeMatch, h]

/-- A character list free of the escape character matches itself as a LIKE
pattern.  (With an escape inside, self-match genuinely fails: the escape
consumes the following pattern character as a literal, which the text's own
backslash then fails to equal.) -/
theorem likeMatch_self (l : List Char) (hb : '\\' ∉ l) : likeMatch l l = true := by
  induction l with
  | nil => simp [likeMatch]
  | cons c cs ih =>
    have hc : c ≠ '\\' := fun h => hb (h ▸ List.mem_cons_self c cs)
    have hcs : '\\' ∉ cs := fun h => hb (List.mem_cons_of_mem c h)
    by_cases hp : c = '%'
    · subst hp
      simp [likeMatch, likeMatch_percent cs cs (ih hcs)]
    · by_cases hu : c = '_'
      · subst hu
        simp [likeMatch, ih hcs]
      · simp [likeMatch, hp, hu, hc, ih hcs]

/-- `ilike` only consults the lowercased pattern, so patterns agreeing up to
case match the same strings. -/
theorem ilike_pattern_congr (p₁ p₂ t : String)
    (h : lowerChars p₁.data = lowerChars p₂.data) : ilike p₁ t = ilike p₂ t := by
  unfold ilike
  rw [h]

/-- An escape-free pattern matches any text it agrees with up to case. -/
theorem ilike_of_lower_eq (p t : String) (h : lowerChars p.data = lowerChars t.data)
    (hb : '\\' ∉ lowerChars p.data) : ilike p t = true := by
  unfold ilike
  rw [h] at hb ⊢
  exact likeMatch_self _ hb

/-- Unfolding of `Char.toLower`. -/
theorem toLower_eq (c : Char) :
    c.toLower = if c.toNat ≥ 65 ∧ c.toNat ≤ 90 then Char.ofNat (c.toNat + 32) else c := rfl

/-- `Char.ofNat` round-trips on valid code points. -/
theorem char_toNat_ofNat_valid (m : Nat) (h : m.isValidChar) :
    (Char.ofNat m).toNat = m := by
  unfold Char.ofNat
  rw [dif_pos h]
  rfl

/-- Lowercasing never produces a backslash from another character. -/
theorem toLower_ne_backslash (c : Char) (h : c ≠ '\\') : c.toLower ≠ '\\' := by
  rw [toLower_eq]
  by_cases hc : c.toNat ≥ 65 ∧ c.toNat ≤ 90
  · rw [if_pos hc]
    intro hx
    have hval : (c.toNat + 32).isValidChar := Or.inl (by omega)
    have hn := congrArg Char.toNat hx
    rw [char_toNat_ofNat_valid _ hval] at hn
    have h92 : ('\\').toNat = 92 := rfl
    rw [h92] at hn
    omega
  · rw [if_neg hc]
    exact h

/-- Lowercasing preserves freedom from the escape character. -/
theorem lowerChars_no_backslash (l : List Char) (h : '\\' ∉ l) :
    '\\' ∉ lowerChars l := by
  unfold lowerChars
  intro hm
  obtain ⟨c, hc, hlow⟩ := List.mem_map.mp hm
  exact toLower_ne_backslash c (fun hcc => h (hcc ▸ hc)) hlow

/-- Normalization keeps a backslash-free trimmed name backslash-free: the
default label contains no backslash and the other branch is the trim
itself. -/
theorem normalize_no_backslash (n : String) (hb : '\\' ∉ (jsTrim n).data) :
    '\\' ∉ (normalizeOrgName (some n)).data := by
  show '\\' ∉ (if jsTrim n = "" then "Default Organization" else jsTrim n).data
  by_cases h : jsTrim n = ""
  · rw [if_pos h]
    decide
  · rw [if_neg h]
    exact hb

/-- `find?` skips a prefix containing no hit. -/
theorem find?_append_none {α : Type} (l₁ l₂ : List α) (p : α → Bool)
    (h : l₁.find? p = none) : (l₁ ++ l₂).find? p = l₂.find? p := by
  rw [List.find?_append, h]
  exact Option.none_or

/-- A profile table containing no row for `userId` yields no lookup hit. -/
theorem profiles_find?_none (s : Store) (userId : String)
    (hfresh : ∀ p ∈ s.profiles, p.id ≠ userId) :
    s.profiles.find? (fun p => p.id == userId) = none := by
  refine List.find?_eq_none.mpr (fun x hx => ?_)
  simp [hfresh x hx]

/-- Closed form of `isUserOnboarded`: the result is always an `ok` boolean,
true exactly when the lookup ran fault-free and found a row. -/
theorem isUserOnboarded_eq (f : Faults) (s : Store) (userId : String) :
    isUserOnboarded f s userId =
      .ok (f.profileLookup.isNone && s.profiles.any (fun p => p.id == userId)) := by
  unfold isUserOnboarded selectProfileById
  cases hf : f.profileLookup with
  | some e =>
    by_cases hc : e.code = "PGRST116" <;> simp [errorOf, dataOf, hc]
  | none =>
    cases hp : s.profiles.find? (fun p => p.id == userId) with
    | some p =>
      have hmem := List.mem_of_find?_eq_some hp
      have hpred := List.find?_some hp
      simp only [errorOf, dataOf, Option.isSome_some, Option.isNone_none, Bool.true_and]
      have hany : s.profiles.any (fun p => p.id == userId) = true :=
        List.any_eq_true.mpr ⟨p, hmem, hpred⟩
      rw [hany]
    | none =>
      have hall := List.find?_eq_none.mp hp
      simp only [errorOf, dataOf, noRowsError]
      rw [if_neg (by simp)]
      simp only [Option.isSome_none, Option.isNone_none, Bool.true_and]
      refine congrArg Except.ok (Eq.symm ?_)
      rw [List.any_eq_false]
      exact hall

/-- Fault-free `findOrCreateOrganization` either returns the first
case-insensitive hit without touching the store, or appends a fresh row
carrying the normalized name. -/
theorem findOrCreateOrganization_cases (s : Store) (n : Option String) :
    (∃ o, s.organizations.find? (fun o => ilike (normalizeOrgName n) o.name) = some o ∧
      findOrCreateOrganization noFaults s n = (.ok o, s)) ∨
    (s.organizations.find? (fun o => ilike (normalizeOrgName n) o.name) = none ∧
      findOrCreateOrganization noFaults s n =
        (.ok ⟨s.nextId, normalizeOrgName n⟩,
         { s with organizations := s.organizations ++ [⟨s.nextId, normalizeOrgName n⟩],
                  nextId := s.nextId + 1 })) := by
  cases hf : s.organizations.find? (fun o => ilike (normalizeOrgName n) o.name) with
  | some o =>
    refine Or.inl ⟨o, rfl, ?_⟩
    simp only [findOrCreateOrganization, searchOrgByNameIlike, insertOrganization, noFaults, hf]
  | none =>
    refine Or.inr ⟨rfl, ?_⟩
    simp only [findOrCreateOrganization, searchOrgByNameIlike, insertOrganization, noFaults, hf]
    simp [noRowsError]

/-- Fault-free `findOrCreateOrganization` succeeds, leaves the profile table
alone, and its organization is present afterwards. -/
theorem findOrCreateOrganization_ok (s : Store) (n : Option String) :
    ∃ org s₁, findOrCreateOrganization noFaults s n = (.ok org, s₁) ∧
      s₁.profiles = s.profiles ∧ org ∈ s₁.organizations ∧
      s.organizations ⊆ s₁.organizations := by
  rcases findOrCreateOrganization_cases s n with ⟨o, hfind, heq⟩ | ⟨hfind, heq⟩
  · exact ⟨o, s, heq, rfl, List.mem_of_find?_eq_some hfind, fun _ h => h⟩
  · refine ⟨⟨s.nextId, normalizeOrgName n⟩, _, heq, rfl, ?_, ?_⟩
    · simp
    · intro x hx
      simp [hx]

/-- Fault-free `createProfile` succeeds when the user id is not already
present, appending the fixed-role row. -/
theorem createProfile_success (s : Store) (userId : String) (orgId : Nat)
    (fullName : Option String)
    (hfresh : s.profiles.any (fun q => q.id == userId) = false) :
    createProfile noFaults s userId orgId fullName =
      (.ok ⟨userId, orgId, "member", fullName⟩,
       { s with profiles := s.profiles ++ [⟨userId, orgId, "member", fullName⟩] }) := by
  unfold createProfile insertProfile noFaults
  simp [hfresh]

/-- The fault-free organization fetch by id succeeds whenever a row with that
id is present, and the returned row carries the requested id. -/
theorem selectOrganizationById_found (s : Store) (oid : Nat) (o : Organization)
    (hmem : o ∈ s.organizations) (hid : o.id = oid) :
    ∃ r, selectOrganizationById none s oid = .ok r ∧ r.id = oid := by
  unfold selectOrganizationById
  have hsome : (s.organizations.find? (fun x => x.id == oid)).isSome :=
    List.find?_isSome.mpr ⟨o, hmem, by simp [hid]⟩
  cases hr : s.organizations.find? (fun x => x.id == oid) with
  | none => rw [hr] at hsome; simp at hsome
  | some r =>
    have hpred := List.find?_some hr
    exact ⟨r, rfl, by simpa using hpred⟩

/-- Reduction of `completeOnboarding` along the fresh-user path. -/
theorem completeOnboarding_not_onboarded (f : Faults) (s : Store) (u n : String)
    (hval : ¬(n = "" ∨ jsTrim n = ""))
    (honb : isUserOnboarded f s u = .ok false)
    (r : OnboardResult) (s' : Store)
    (hob : onboardUser f s u ⟨some n, none, none⟩ = (.ok r, s')) :
    completeOnboarding f s u (some n) =
      ({ status := 200, success := some true,
         message := some "Onboarding completed successfully", error := none,
         details := none, org := some r.organization, profile := some r.profile }, s') := by
  simp only [completeOnboarding, if_neg hval, honb, hob]

/-- Reduction of `completeOnboarding` along the already-onboarded path: the
store is read twice and returned untouched. -/
theorem completeOnboarding_already (f : Faults) (s : Store) (u n : String)
    (hval : ¬(n = "" ∨ jsTrim n = ""))
    (honb : isUserOnboarded f s u = .ok true)
    (prof : Profile) (hpf : selectProfileById f.profileFetch s u = .ok prof)
    (org : Organization) (hof : selectOrganizationById f.orgFetch s prof.org_id = .ok org) :
    completeOnboarding f s u (some n) =
      ({ status := 200, success := some true, message := some "User already onboarded",
         error := none, details := none, org := some org, profile := some prof }, s) := by
  simp only [completeOnboarding, if_neg hval, honb, hpf, hof]

/-- A string with an empty character list is the empty string. -/
theorem string_eq_empty_of_data_nil (s : String) (h : s.data = []) : s = "" := by
  cases s
  simp_all

/-- Lowercasing an empty character list detects string emptiness. -/
theorem eq_empty_of_lowerChars_nil (s : String) (h : lowerChars s.data = []) : s = "" :=
  string_eq_empty_of_data_nil s (List.map_eq_nil_iff.mp h)

/-- Names agreeing after trim up to case normalize to names agreeing up to
case: either both trims are empty and the default label is used twice, or
neither is and the trims themselves agree. -/
theorem normalize_lower_congr (n₁ n₂ : String)
    (h : lowerChars (jsTrim n₁).data = lowerChars (jsTrim n₂).data) :
    lowerChars (normalizeOrgName (some n₁)).data =
      lowerChars (normalizeOrgName (some n₂)).data := by
  unfold normalizeOrgName
  by_cases h₁ : jsTrim n₁ = ""
  · have h₂ : jsTrim n₂ = "" := by
      refine eq_empty_of_lowerChars_nil _ ?_
      rw [← h, h₁]
      rfl
    simp [h₁, h₂]
  · have h₂ : jsTrim n₂ ≠ "" := by
      intro hc
      apply h₁
      refine eq_empty_of_lowerChars_nil _ ?_
      rw [h, hc]
      rfl
    simp only [if_neg h₁, if_neg h₂]
    exact h

/-! Claim theorems. -/

/-- C3 (counterexample): with a profile lookup that fails with a
non-`PGRST116` error, `isUserOnboarded` resolves to the boolean `false`
instead of propagating the failure — even though the queried user does have a
profile in the store. -/
theorem isUserOnboarded_error_swallowed_cex :
    isUserOnboarded
      ⟨some ⟨"XX000", "disk failure"⟩, none, none, none, none, none⟩
      ⟨[], [⟨"user-1", 0, "member", none⟩], 0⟩ "user-1" = .ok false := rfl

/-- C3 (amended): `isUserOnboarded` is a read-only existence check on the
profile table by primary key; it resolves to `true` exactly when the lookup
ran without fault and found a row, and it resolves to `false` both on the
`PGRST116` "not found" error and on every other lookup error — no lookup
error propagates as a failure. -/
theorem isUserOnboarded_existence_check (f : Faults) (s : Store) (userId : String) :
    isUserOnboarded f s userId =
      .ok (f.profileLookup.isNone && s.profiles.any (fun p => p.id == userId)) :=
  isUserOnboarded_eq f s userId

/-- C8: calling `POST /api/onboarding/complete` with a missing, empty or
whitespace-only organization name yields the 400 validation response and
returns the store exactly as received — for every fault configuration, since
no persistence call is reached. -/
theorem completeOnboarding_blank_rejected (f : Faults) (s : Store) (userId : String)
    (organization_name : Option String)
    (hblank : organization_name = none ∨ organization_name = some "" ∨
      ∃ n, organization_name = some n ∧ jsTrim n = "") :
    completeOnboarding f s userId organization_name = (badOrgNameResponse, s) := by
  rcases hblank with h | h | ⟨n, hn, ht⟩
  · subst h; rfl
  · subst h; simp [completeOnboarding]
  · subst hn; simp [completeOnboarding, ht]

/-- C8 witness at the empty organization name. -/
theorem completeOnboarding_blank_rejected_witness :
    completeOnboarding noFaults ⟨[], [], 0⟩ "user-1" (some "") =
      (badOrgNameResponse, ⟨[], [], 0⟩) :=
  completeOnboarding_blank_rejected noFaults ⟨[], [], 0⟩ "user-1" (some "")
    (Or.inr (Or.inl rfl))

/-- C10: both durable chat writes reject a caller whose resolved identity has
no `org_id`, answering 400 with the fixed error text and performing no
insert, under every fault configuration and external-reply behaviour. -/
theorem chat_writes_require_org (cf : ChatFaults)
    (gen : String → List HistoryEntry → Except String String)
    (s : ChatStore) (user : ReqUser) (title : Option String)
    (conversation_id : Option Nat) (content : String)
    (horg : user.org_id = none) :
    createConversation cf s user title =
      (.ok { status := 400, error := some noOrgErrorText, conversation := none }, s) ∧
    sendMessage cf gen s user conversation_id content =
      (.ok { status := 400, error := some noOrgErrorText, conversation_id := none,
             userMessage := none, assistantMessage := none }, s) := by
  constructor
  · simp only [createConversation, horg]
  · simp only [sendMessage, horg]

/-- C10 witness: a caller with no organization. -/
theorem chat_writes_require_org_witness :
    createConversation noChatFaults ⟨[], [], 0⟩ ⟨"user-1", none⟩ (some "Hi") =
      (.ok { status := 400, error := some noOrgErrorText, conversation := none },
       (⟨[], [], 0⟩ : ChatStore)) ∧
    sendMessage noChatFaults (fun _ _ => .ok "reply") ⟨[], [], 0⟩ ⟨"user-1", none⟩
        none "hello" =
      (.ok { status := 400, error := some noOrgErrorText, conversation_id := none,
             userMessage := none, assistantMessage := none },
       (⟨[], [], 0⟩ : ChatStore)) :=
  chat_writes_require_org noChatFaults (fun _ _ => .ok "reply") ⟨[], [], 0⟩
    ⟨"user-1", none⟩ (some "Hi") none "hello" rfl

/-- C5: when the external completion call fails — whatever the error — the
chat turn does not fail: `sendMessage` substitutes the deterministic echo
fallback, stores it as the assistant message, and returns normally with
status 200. -/
theorem sendMessage_fallback_on_gemini_failure (s : ChatStore) (user : ReqUser)
    (orgId : Nat) (conversation_id : Option Nat) (content err : String)
    (horg : user.org_id = some orgId) :
    ∃ resp s', sendMessage noChatFaults (fun _ _ => .error err) s user conversation_id content =
        (.ok resp, s') ∧
      resp.status = 200 ∧
      ∃ am, resp.assistantMessage = some am ∧
        am.content = "I got this input: " ++ content ∧ am ∈ s'.messages := by
  rcases conversation_id with _ | cid <;>
  · simp only [sendMessage, insertConversation, insertMessage, selectHistory,
      noChatFaults, horg]
    exact ⟨_, _, rfl, rfl, _, rfl, rfl, by simp⟩

/-- C5 witness at a concrete store, user and failing external call. -/
theorem sendMessage_fallback_on_gemini_failure_witness :
    ∃ resp s', sendMessage noChatFaults (fun _ _ => .error "quota exceeded")
        ⟨[], [], 0⟩ ⟨"user-1", some 7⟩ none "hello" = (.ok resp, s') ∧
      resp.status = 200 ∧
      ∃ am, resp.assistantMessage = some am ∧
        am.content = "I got this input: " ++ "hello" ∧ am ∈ s'.messages :=
  sendMessage_fallback_on_gemini_failure ⟨[], [], 0⟩ ⟨"user-1", some 7⟩ 7 none
    "hello" "quota exceeded" rfl

/-- C9: when no `conversationId` is supplied, `sendMessage` creates a new
conversation titled with the 30-character prefix of the content, appending
"..." exactly when the content is longer; content of at most 30 characters
becomes the title unchanged. -/
theorem sendMessage_derives_title (gen : String → List HistoryEntry → Except String String)
    (s : ChatStore) (user : ReqUser) (orgId : Nat) (content : String)
    (horg : user.org_id = some orgId) :
    ∃ resp s', sendMessage noChatFaults gen s user none content = (.ok resp, s') ∧
      resp.conversation_id = some s.nextId ∧
      s'.conversations = s.conversations ++
        [⟨s.nextId, user.id, orgId,
          jsSubstringTo content 30 ++ (if content.length > 30 then "..." else ""),
          s.nextId⟩] ∧
      (content.length ≤ 30 →
        jsSubstringTo content 30 ++ (if content.length > 30 then "..." else "") =
          content) := by
  simp only [sendMessage, insertConversation, insertMessage, selectHistory,
    noChatFaults, horg]
  refine ⟨_, _, rfl, rfl, by simp, ?_⟩
  · intro h
    rw [if_neg (by omega)]
    have ht : content.data.take 30 = content.data := List.take_of_length_le h
    simp [jsSubstringTo, ht]

/-- C9 witness: short content keeps its full text as the title, and the new
conversation row is appended. -/
theorem sendMessage_derives_title_witness :
    ∃ resp s', sendMessage noChatFaults (fun _ _ => .ok "reply") ⟨[], [], 5⟩
        ⟨"user-1", some 7⟩ none "hello" = (.ok resp, s') ∧
      resp.conversation_id = some 5 ∧
      s'.conversations = [] ++
        [⟨5, "user-1", 7,
          jsSubstringTo "hello" 30 ++ (if "hello".length > 30 then "..." else ""), 5⟩] ∧
      ("hello".length ≤ 30 →
        jsSubstringTo "hello" 30 ++ (if "hello".length > 30 then "..." else "") =
          "hello") :=
  sendMessage_derives_title (fun _ _ => .ok "reply") ⟨[], [], 5⟩ ⟨"user-1", some 7⟩ 7
    "hello" rfl

/-- C4: whenever the internal onboarding processing of a handled auth
webhook fails — the user was not yet onboarded and `onboardUser` threw —
the handler still answers HTTP 200, carrying `success: false` and the
error's message; no failing request of this shape gets a non-200 status. -/
theorem handleAuthWebhook_responds_200_on_failure (f : Faults) (s : Store)
    (body : WebhookBody) (uid emsg : String) (s' : Store)
    (htype : body.type = some "INSERT" ∨ body.type = some "user.created")
    (hid : body.record.bind WebhookRecord.id = some uid) (huid : uid ≠ "")
    (hnot : isUserOnboarded f s uid = .ok false)
    (hfail : onboardUser f s uid (webhookMetadata body.record) = (.error emsg, s')) :
    handleAuthWebhook f s body =
      ({ status := 200, success := some false,
         message := some "Webhook processed with errors", error := some emsg,
         type := none, userId := none, organizationId := none,
         organizationName := none }, s') := by
  have ht : ¬(body.type ≠ some "INSERT" ∧ body.type ≠ some "user.created") := by
    rcases htype with h | h <;> simp [h]
  simp only [handleAuthWebhook, if_neg ht, hid, Option.getD_some, hnot, hfail]
  rw [if_neg (by simp [huid])]

/-- C4 witness: a webhook for a fresh user whose profile insert fails. -/
theorem handleAuthWebhook_responds_200_on_failure_witness :
    handleAuthWebhook ⟨none, none, none, some ⟨"08006", "connection lost"⟩, none, none⟩
        ⟨[], [], 0⟩ ⟨some "INSERT", some ⟨some "user-1", none, none⟩⟩ =
      ({ status := 200, success := some false,
         message := some "Webhook processed with errors",
         error := some ("Failed to create profile: " ++ "connection lost"),
         type := none, userId := none, organizationId := none,
         organizationName := none },
       { organizations := [⟨0, "Default Organization"⟩], profiles := [],
         nextId := 1 }) :=
  handleAuthWebhook_responds_200_on_failure
    ⟨none, none, none, some ⟨"08006", "connection lost"⟩, none, none⟩
    ⟨[], [], 0⟩ ⟨some "INSERT", some ⟨some "user-1", none, none⟩⟩ "user-1"
    ("Failed to create profile: " ++ "connection lost")
    { organizations := [⟨0, "Default Organization"⟩], profiles := [], nextId := 1 }
    (Or.inl rfl) rfl (by decide) rfl rfl

/-- C6: when the profile insert fails after `findOrCreateOrganization` has
created a new organization, `onboardUser` propagates the error and takes no
compensating action — the organization row stays in the store and the
profile table is exactly as before. -/
theorem onboardUser_keeps_new_org_on_profile_failure (s : Store) (userId : String)
    (metadata : UserMetadata)
    (hdup : s.profiles.any (fun q => q.id == userId) = true)
    (hnoorg : s.organizations.find? (fun o =>
      ilike (normalizeOrgName (jsOr metadata.organization_name metadata.organizationName))
        o.name) = none) :
    onboardUser noFaults s userId metadata =
      (.error ("Failed to create profile: " ++ duplicateKeyError.message),
       { organizations := s.organizations ++
           [⟨s.nextId,
             normalizeOrgName (jsOr metadata.organization_name metadata.organizationName)⟩],
         profiles := s.profiles, nextId := s.nextId + 1 }) := by
  rcases findOrCreateOrganization_cases s
      (jsOr metadata.organization_name metadata.organizationName) with
    ⟨o, hf, _⟩ | ⟨_, heq⟩
  · rw [hnoorg] at hf
    cases hf
  · simp only [onboardUser]
    rw [heq]
    simp only [createProfile, insertProfile, noFaults]
    rw [if_pos hdup]

/-- C6 witness: a store already holding the user's profile and no matching
organization. -/
theorem onboardUser_keeps_new_org_on_profile_failure_witness :
    onboardUser noFaults ⟨[], [⟨"user-1", 3, "member", none⟩], 9⟩ "user-1"
        ⟨some "Acme", none, none⟩ =
      (.error ("Failed to create profile: " ++ duplicateKeyError.message),
       { organizations := [] ++ [⟨9, normalizeOrgName (jsOr (some "Acme") none)⟩],
         profiles := [⟨"user-1", 3, "member", none⟩], nextId := 10 }) :=
  onboardUser_keeps_new_org_on_profile_failure
    ⟨[], [⟨"user-1", 3, "member", none⟩], 9⟩ "user-1" ⟨some "Acme", none, none⟩
    (by decide) rfl

/-- C7: `findOrCreateOrganization` trims the supplied name — the organization
it creates is named with the trimmed text — and an absent name and the empty
string behave identically, resolving to the fixed label "Default
Organization". -/
theorem findOrCreateOrganization_normalizes (s : Store) (n : String)
    (hempty : s.organizations = []) (hn : jsTrim n ≠ "") :
    findOrCreateOrganization noFaults s (some "") =
        findOrCreateOrganization noFaults s none ∧
    (∃ org s', findOrCreateOrganization noFaults s none = (.ok org, s') ∧
      org.name = "Default Organization") ∧
    (∃ org s', findOrCreateOrganization noFaults s (some n) = (.ok org, s') ∧
      org.name = jsTrim n) := by
  refine ⟨rfl, ?_, ?_⟩
  · rcases findOrCreateOrganization_cases s none with ⟨o, hf, _⟩ | ⟨_, heq⟩
    · rw [hempty] at hf
      cases hf
    · exact ⟨_, _, heq, rfl⟩
  · rcases findOrCreateOrganization_cases s (some n) with ⟨o, hf, _⟩ | ⟨_, heq⟩
    · rw [hempty] at hf
      cases hf
    · refine ⟨_, _, heq, ?_⟩
      simp [normalizeOrgName, hn]

/-- C7 witness on the empty store with a padded name. -/
theorem findOrCreateOrganization_normalizes_witness :
    findOrCreateOrganization noFaults ⟨[], [], 0⟩ (some "") =
        findOrCreateOrganization noFaults ⟨[], [], 0⟩ none ∧
    (∃ org s', findOrCreateOrganization noFaults ⟨[], [], 0⟩ none = (.ok org, s') ∧
      org.name = "Default Organization") ∧
    (∃ org s', findOrCreateOrganization noFaults ⟨[], [], 0⟩ (some "  Growth Co  ") =
        (.ok org, s') ∧ org.name = jsTrim "  Growth Co  ") :=
  findOrCreateOrganization_normalizes ⟨[], [], 0⟩ "  Growth Co  " rfl (by decide)

/-- C2 (counterexample): the claim fails on names containing the ILIKE
escape character.  "a\b" and "A\B" differ only by letter case, yet on the
empty store the first call inserts an organization named "a\b" and the
second call — the stored name is not matched by its own case-variant
pattern, the backslash escaping the following character — inserts a second
organization and returns that different record. -/
theorem findOrCreateOrganization_backslash_cex :
    findOrCreateOrganization noFaults ⟨[], [], 0⟩ (some "a\\b") =
      (.ok ⟨0, "a\\b"⟩, ⟨[⟨0, "a\\b"⟩], [], 1⟩) ∧
    findOrCreateOrganization noFaults ⟨[⟨0, "a\\b"⟩], [], 1⟩ (some "A\\B") =
      (.ok ⟨1, "A\\B"⟩, ⟨[⟨0, "a\\b"⟩, ⟨1, "A\\B"⟩], [], 2⟩) ∧
    (⟨1, "A\\B"⟩ : Organization) ≠ ⟨0, "a\\b"⟩ := by
  refine ⟨rfl, ?_, by decide⟩
  have hnorm : normalizeOrgName (some "A\\B") = "A\\B" := rfl
  have hpredval : ilike "A\\B" "a\\b" = false := by
    show likeMatch (lowerChars "A\\B".data) (lowerChars "a\\b".data) = false
    have h₁ : lowerChars "A\\B".data = ['a', '\\', 'b'] := rfl
    have h₂ : lowerChars "a\\b".data = ['a', '\\', 'b'] := rfl
    rw [h₁, h₂]
    simp [likeMatch]
  have hfind : (([⟨0, "a\\b"⟩] : List Organization).find?
      (fun o => ilike (normalizeOrgName (some "A\\B")) o.name)) = none := by
    simp only [hnorm, List.find?, hpredval]
  rcases findOrCreateOrganization_cases ⟨[⟨0, "a\\b"⟩], [], 1⟩ (some "A\\B") with
    ⟨o, hf, _⟩ | ⟨_, heq⟩
  · rw [hfind] at hf
    cases hf
  · rw [hnorm] at heq
    exact heq

/-- C2 (amended): for two names free of the ILIKE escape character
(backslash) that differ only by letter case or surrounding whitespace,
running `findOrCreateOrganization` with the first and then with the second
returns the very same organization record both times, and the second run
inserts nothing — whatever the prior store state. -/
theorem findOrCreateOrganization_case_insensitive (s : Store) (n₁ n₂ : String)
    (h : lowerChars (jsTrim n₁).data = lowerChars (jsTrim n₂).data)
    (hb₁ : '\\' ∉ (jsTrim n₁).data) (hb₂ : '\\' ∉ (jsTrim n₂).data) :
    ∃ org s₁, findOrCreateOrganization noFaults s (some n₁) = (.ok org, s₁) ∧
      findOrCreateOrganization noFaults s₁ (some n₂) = (.ok org, s₁) := by
  have hm := normalize_lower_congr n₁ n₂ h
  have hb₂' : '\\' ∉ lowerChars (normalizeOrgName (some n₂)).data :=
    lowerChars_no_backslash _ (normalize_no_backslash n₂ hb₂)
  have hpred : (fun o : Organization => ilike (normalizeOrgName (some n₂)) o.name) =
      (fun o => ilike (normalizeOrgName (some n₁)) o.name) := by
    funext o
    exact ilike_pattern_congr _ _ o.name hm.symm
  rcases findOrCreateOrganization_cases s (some n₁) with ⟨o, hf, heq⟩ | ⟨hf, heq⟩
  · refine ⟨o, s, heq, ?_⟩
    rcases findOrCreateOrganization_cases s (some n₂) with ⟨o', hf', heq'⟩ | ⟨hf', heq'⟩
    · rw [hpred, hf] at hf'
      cases hf'
      exact heq'
    · rw [hpred, hf] at hf'
      cases hf'
  · refine ⟨⟨s.nextId, normalizeOrgName (some n₁)⟩, _, heq, ?_⟩
    have hfind₂ : (s.organizations ++
        [(⟨s.nextId, normalizeOrgName (some n₁)⟩ : Organization)]).find?
          (fun o => ilike (normalizeOrgName (some n₂)) o.name) =
        some ⟨s.nextId, normalizeOrgName (some n₁)⟩ := by
      rw [find?_append_none _ _ _ (by rw [hpred]; exact hf)]
      simp [List.find?, ilike_of_lower_eq _ _ hm.symm hb₂']
    rcases findOrCreateOrganization_cases
        ({ s with organizations := s.organizations ++
            [⟨s.nextId, normalizeOrgName (some n₁)⟩], nextId := s.nextId + 1 })
        (some n₂) with ⟨o', hf', heq'⟩ | ⟨hf', heq'⟩
    · rw [hfind₂] at hf'
      cases hf'
      exact heq'
    · rw [hfind₂] at hf'
      cases hf'

/-- C2 witness: a padded lowercase name followed by its uppercase form,
both free of the escape character. -/
theorem findOrCreateOrganization_case_insensitive_witness :
    ∃ org s₁, findOrCreateOrganization noFaults ⟨[], [], 0⟩ (some " acme corp") =
        (.ok org, s₁) ∧
      findOrCreateOrganization noFaults s₁ (some "ACME CORP ") = (.ok org, s₁) :=
  findOrCreateOrganization_case_insensitive ⟨[], [], 0⟩ " acme corp" "ACME CORP "
    (by decide) (by decide) (by decide)

/-- C1: for a valid organization name and a user with no profile yet, running
`POST /api/onboarding/complete` and then running it again returns, the second
time, HTTP 200 with message "User already onboarded", the same organization
id and profile id as the first call, and a store identical to the one after
the first call — no additional insert happens. -/
theorem completeOnboarding_idempotent (s : Store) (userId orgName : String)
    (hname : jsTrim orgName ≠ "")
    (hfresh : ∀ p ∈ s.profiles, p.id ≠ userId) :
    ∃ r₁ st r₂,
      completeOnboarding noFaults s userId (some orgName) = (r₁, st) ∧
      completeOnboarding noFaults st userId (some orgName) = (r₂, st) ∧
      r₁.status = 200 ∧ r₂.status = 200 ∧
      r₂.message = some "User already onboarded" ∧
      Option.map Organization.id r₂.org = Option.map Organization.id r₁.org ∧
      Option.map Profile.id r₂.profile = Option.map Profile.id r₁.profile := by
  have hne : orgName ≠ "" := fun hc => hname (by rw [hc]; rfl)
  have hval : ¬(orgName = "" ∨ jsTrim orgName = "") := by
    rintro (h | h)
    · exact hne h
    · exact hname h
  have hnotonb : isUserOnboarded noFaults s userId = .ok false := by
    rw [isUserOnboarded_eq]
    have hany : s.profiles.any (fun p => p.id == userId) = false := by
      rw [List.any_eq_false]
      intro p hp
      simp [hfresh p hp]
    simp [hany, noFaults]
  obtain ⟨org, s₁, hfc, hprofeq, hmem, _⟩ := findOrCreateOrganization_ok s (some orgName)
  have hanyfalse : s₁.profiles.any (fun q => q.id == userId) = false := by
    rw [hprofeq, List.any_eq_false]
    intro p hp
    simp [hfresh p hp]
  have honb : onboardUser noFaults s userId ⟨some orgName, none, none⟩ =
      (.ok ⟨org, ⟨userId, org.id, "member", none⟩⟩,
       { s₁ with profiles := s₁.profiles ++ [⟨userId, org.id, "member", none⟩] }) := by
    simp only [onboardUser]
    have hjs : jsOr (some orgName) none = some orgName := by simp [jsOr, hne]
    rw [hjs, hfc]
    simp only [jsOrNull, createProfile_success s₁ userId org.id none hanyfalse]
  have h1 := completeOnboarding_not_onboarded noFaults s userId orgName hval hnotonb
    ⟨org, ⟨userId, org.id, "member", none⟩⟩
    { s₁ with profiles := s₁.profiles ++ [⟨userId, org.id, "member", none⟩] } honb
  have hfind₂ : (s₁.profiles ++
      [(⟨userId, org.id, "member", none⟩ : Profile)]).find?
        (fun p => p.id == userId) = some ⟨userId, org.id, "member", none⟩ := by
    rw [find?_append_none _ _ _ (by rw [hprofeq]; exact profiles_find?_none s userId hfresh)]
    simp [List.find?]
  have hisonb₂ : isUserOnboarded noFaults
      { s₁ with profiles := s₁.profiles ++ [⟨userId, org.id, "member", none⟩] }
      userId = .ok true := by
    rw [isUserOnboarded_eq]
    have hany : ({ s₁ with profiles := s₁.profiles ++
        [(⟨userId, org.id, "member", none⟩ : Profile)] } : Store).profiles.any
          (fun p => p.id == userId) = true :=
      List.any_eq_true.mpr ⟨⟨userId, org.id, "member", none⟩,
        List.mem_of_find?_eq_some hfind₂, by simp⟩
    simp [hany, noFaults]
  have hpf : selectProfileById noFaults.profileFetch
      { s₁ with profiles := s₁.profiles ++ [⟨userId, org.id, "member", none⟩] }
      userId = .ok ⟨userId, org.id, "member", none⟩ := by
    simp only [selectProfileById, noFaults]
    rw [hfind₂]
  obtain ⟨r, hor, hrid⟩ := selectOrganizationById_found
    { s₁ with profiles := s₁.profiles ++ [⟨userId, org.id, "member", none⟩] }
    org.id org hmem rfl
  have h2 := completeOnboarding_already noFaults
    { s₁ with profiles := s₁.profiles ++ [⟨userId, org.id, "member", none⟩] }
    userId orgName hval hisonb₂ ⟨userId, org.id, "member", none⟩ hpf r hor
  refine ⟨_, _, _, h1, h2, rfl, rfl, rfl, ?_, rfl⟩
  simp [hrid]

/-- C1 witness: a fresh user onboarding twice into "Acme" on the empty
store. -/
theorem completeOnboarding_idempotent_witness :
    ∃ r₁ st r₂,
      completeOnboarding noFaults ⟨[], [], 0⟩ "user-1" (some "Acme") = (r₁, st) ∧
      completeOnboarding noFaults st "user-1" (some "Acme") = (r₂, st) ∧
      r₁.status = 200 ∧ r₂.status = 200 ∧
      r₂.message = some "User already onboarded" ∧
      Option.map Organization.id r₂.org = Option.map Organization.id r₁.org ∧
      Option.map Profile.id r₂.profile = Option.map Profile.id r₁.profile :=
  completeOnboarding_idempotent ⟨[], [], 0⟩ "user-1" "Acme" (by decide)
    (by intro p hp; cases hp)

end SGE
